import Mathlib

/-!
Shallow embedding of the `mcp-esa-server` Python package.

Source files embedded:
* `src/mcp_esa_server/esa_client.py` — the `EsaClient` class: constructor
  validation, the generic `_request` helper, and the six HTTP operations.
* `src/mcp_esa_server/server.py` — the six MCP tool functions
  (`user_get_info`, `posts_get_list`, `posts_get_detail`, `posts_create`,
  `posts_update`, `posts_delete`).

Modelling conventions:
* The network is an oracle `Net : HttpRequest → HttpResponse` passed to every
  operation; each operation also returns the list of HTTP requests it issued,
  so "performs no network call" is statable as an empty trace.
* Python exceptions become `Except`: `ValueError` at construction is
  `Except String`, transport/parse failures are `ClientError`, and the
  `RuntimeError`s raised at the tool boundary are `ToolError`.
* `requests.Response.raise_for_status` raises exactly for status codes in
  `[400, 600)`; `response.json()` fails when the body is not valid JSON,
  modelled by `HttpResponse.jsonBody = none`.  The messages of those two
  library exceptions are supplied by the oracle (`statusMessage`,
  `decodeMessage`) since the repository only propagates them.
* Logging calls (`logger.info` etc.) have no modelled effect.
-/

/-- A JSON value, as built for request payloads or parsed from response bodies. -/
inductive Json where
  | null : Json
  | bool (b : Bool) : Json
  | num (n : Int) : Json
  | str (s : String) : Json
  | arr (items : List Json) : Json
  | obj (fields : List (String × Json)) : Json

/-- A query-parameter value: the repository sends strings (`q`) and integers
(`page`, `per_page`). -/
inductive ParamVal where
  | str (s : String) : ParamVal
  | int (n : Int) : ParamVal
deriving DecidableEq

/-- One outgoing HTTP request, as assembled by `EsaClient`: method, full URL,
query parameters, optional JSON body, and the session headers attached to it. -/
structure HttpRequest where
  method : String
  url : String
  params : List (String × ParamVal)
  jsonBody : Option Json
  headers : List (String × String)

/-- The transport-level outcome of a request.  `jsonBody = some j` means the
body parses as the JSON value `j`; `none` means `response.json()` would raise.
`statusMessage` is the message of the `HTTPError` that `raise_for_status`
raises for a 4xx/5xx status; `decodeMessage` is the message of the JSON decode
error.  Both are library-produced text the repository merely propagates. -/
structure HttpResponse where
  status : Nat
  jsonBody : Option Json
  statusMessage : String
  decodeMessage : String

/-- The network oracle: what the remote service answers to each request. -/
def Net : Type := HttpRequest → HttpResponse

/-- A failure raised inside an `EsaClient` operation: an `HTTPError` from
`raise_for_status`, or the error from `response.json()` on an unparseable body. -/
inductive ClientError where
  | httpError (status : Nat) (msg : String) : ClientError
  | jsonDecodeError (msg : String) : ClientError
deriving DecidableEq

/-- `str(e)` for a client failure: the message carried by the exception. -/
def ClientError.message : ClientError → String
  | .httpError _ msg => msg
  | .jsonDecodeError msg => msg

/-- The state of a constructed `EsaClient`: the fields set by `__init__`
(`self.token`, `self.team_name`, `self.base_url`) and the session headers
installed by `session.headers.update`. -/
structure EsaClient where
  token : String
  team_name : String
  base_url : String
  headers : List (String × String)

/-- Python truthiness of an optional string: `not x` is true when the value is
absent (`None`) or the empty string. -/
def optStrFalsy : Option String → Bool
  | none => true
  | some s => s = ""

/-- `EsaClient.__init__(token, team_name)` (esa_client.py lines 9–27):
raises `ValueError` when either argument is falsy; otherwise derives
`base_url` and installs the Authorization / Content-Type session headers. -/
def EsaClient.init (token team_name : Option String) : Except String EsaClient :=
  if optStrFalsy token then
    Except.error "ESA_TOKEN is required"
  else if optStrFalsy team_name then
    Except.error "ESA_TEAM_NAME is required"
  else
    let t := token.getD ""
    let n := team_name.getD ""
    Except.ok
      { token := t
        team_name := n
        base_url := "https://api.esa.io/v1/teams/" ++ n
        headers :=
          [("Authorization", "Bearer " ++ t), ("Content-Type", "application/json")] }

/-- `EsaClient._request(method, path, **kwargs)` (esa_client.py lines 29–41):
builds the URL from `base_url ++ path`, issues the request on the
preconfigured session, raises for a 4xx/5xx status, then parses and returns
the JSON body.  Second component: the requests issued (always exactly one). -/
def EsaClient.request (c : EsaClient) (net : Net) (method path : String)
    (params : List (String × ParamVal)) (jsonBody : Option Json) :
    Except ClientError Json × List HttpRequest :=
  let req : HttpRequest :=
    { method := method
      url := c.base_url ++ path
      params := params
      jsonBody := jsonBody
      headers := c.headers }
  let resp := net req
  if 400 ≤ resp.status ∧ resp.status < 600 then
    (Except.error (ClientError.httpError resp.status resp.statusMessage), [req])
  else
    match resp.jsonBody with
    | some j => (Except.ok j, [req])
    | none => (Except.error (ClientError.jsonDecodeError resp.decodeMessage), [req])

/-- `EsaClient.get_user` (esa_client.py lines 43–56): GET on the fixed,
non-team-scoped user URL with the session headers; raises for bad status,
parses and returns the JSON body. -/
def EsaClient.get_user (c : EsaClient) (net : Net) :
    Except ClientError Json × List HttpRequest :=
  let req : HttpRequest :=
    { method := "GET"
      url := "https://api.esa.io/v1/user"
      params := []
      jsonBody := none
      headers := c.headers }
  let resp := net req
  if 400 ≤ resp.status ∧ resp.status < 600 then
    (Except.error (ClientError.httpError resp.status resp.statusMessage), [req])
  else
    match resp.jsonBody with
    | some j => (Except.ok j, [req])
    | none => (Except.error (ClientError.jsonDecodeError resp.decodeMessage), [req])

/-- The `if q: params["q"] = q` step of `EsaClient.get_posts`
(esa_client.py lines 61–62): the `q` entry is added only when truthy
(non-`None` and non-empty). -/
def qParam : Option String → List (String × ParamVal)
  | some s => if s = "" then [] else [("q", ParamVal.str s)]
  | none => []

/-- The `if page: params["page"] = page` / `if per_page: ...` steps of
`EsaClient.get_posts` (esa_client.py lines 63–66): the entry under `key` is
added only when truthy (non-`None` and non-zero). -/
def intParam (key : String) : Option Int → List (String × ParamVal)
  | some n => if n = 0 then [] else [(key, ParamVal.int n)]
  | none => []

/-- The query-parameter dict built by `EsaClient.get_posts`
(esa_client.py lines 60–66), in insertion order. -/
def listParams (q : Option String) (page per_page : Option Int) :
    List (String × ParamVal) :=
  qParam q ++ intParam "page" page ++ intParam "per_page" per_page

/-- `EsaClient.get_posts(q, page, per_page)` (esa_client.py lines 58–68):
GET `/posts` with the truthiness-filtered params, via `_request`. -/
def EsaClient.get_posts (c : EsaClient) (net : Net) (q : Option String)
    (page per_page : Option Int) : Except ClientError Json × List HttpRequest :=
  c.request net "GET" "/posts" (listParams q page per_page) none

/-- `EsaClient.get_post(post_number)` (esa_client.py lines 70–73). -/
def EsaClient.get_post (c : EsaClient) (net : Net) (post_number : Int) :
    Except ClientError Json × List HttpRequest :=
  c.request net "GET" ("/posts/" ++ toString post_number) [] none

/-- `EsaClient.create_post(payload)` (esa_client.py lines 75–84): POST
`/posts` with the payload wrapped as `{"post": payload}`. -/
def EsaClient.create_post (c : EsaClient) (net : Net) (payload : Json) :
    Except ClientError Json × List HttpRequest :=
  c.request net "POST" "/posts" [] (some (Json.obj [("post", payload)]))

/-- `EsaClient.update_post(post_number, payload)` (esa_client.py lines
86–96): PATCH `/posts/{post_number}` with the payload wrapped as
`{"post": payload}`. -/
def EsaClient.update_post (c : EsaClient) (net : Net) (post_number : Int)
    (payload : Json) : Except ClientError Json × List HttpRequest :=
  c.request net "PATCH" ("/posts/" ++ toString post_number) []
    (some (Json.obj [("post", payload)]))

/-- The POST request assembled by `EsaClient.create_post` through `_request`:
note the body is the payload wrapped under the single outer key `"post"`. -/
def createReq (c : EsaClient) (payload : Json) : HttpRequest :=
  { method := "POST"
    url := c.base_url ++ "/posts"
    params := []
    jsonBody := some (Json.obj [("post", payload)])
    headers := c.headers }

/-- The PATCH request assembled by `EsaClient.update_post` through
`_request`, with the payload wrapped under the single outer key `"post"`. -/
def updateReq (c : EsaClient) (post_number : Int) (payload : Json) : HttpRequest :=
  { method := "PATCH"
    url := c.base_url ++ ("/posts/" ++ toString post_number)
    params := []
    jsonBody := some (Json.obj [("post", payload)])
    headers := c.headers }

/-- The DELETE request assembled by `EsaClient.delete_post`. -/
def deleteReq (c : EsaClient) (post_number : Int) : HttpRequest :=
  { method := "DELETE"
    url := c.base_url ++ "/posts/" ++ toString post_number
    params := []
    jsonBody := none
    headers := c.headers }

/-- `EsaClient.delete_post(post_number)` (esa_client.py lines 98–113):
issues the DELETE directly on the session (bypassing `_request`), raises for
a 4xx/5xx status, and returns `None` without ever touching the response
body — note the result does not depend on `HttpResponse.jsonBody`. -/
def EsaClient.delete_post (c : EsaClient) (net : Net) (post_number : Int) :
    Except ClientError Unit × List HttpRequest :=
  let req := deleteReq c post_number
  let resp := net req
  if 400 ≤ resp.status ∧ resp.status < 600 then
    (Except.error (ClientError.httpError resp.status resp.statusMessage), [req])
  else
    (Except.ok (), [req])

/-- A failure raised across the tool boundary (server.py): the uniform
`RuntimeError("EsaClient not initialized")` guard, or a
`RuntimeError` wrapping an underlying client failure (`raise ... from e`,
so the cause is retained). -/
inductive ToolError where
  | notInitialized : ToolError
  | wrapped (msg : String) (cause : ClientError) : ToolError
deriving DecidableEq

/-- The message of the `RuntimeError` surfaced to the host runtime. -/
def ToolError.message : ToolError → String
  | .notInitialized => "EsaClient not initialized"
  | .wrapped msg _ => msg

/-- Module-level client construction in server.py (lines 30–42): when either
environment value is falsy the client is skipped (`None`); a `ValueError`
from `EsaClient.__init__` is also caught and leaves the client `None`. -/
def init_esa_client (esa_token esa_team_name : Option String) : Option EsaClient :=
  if optStrFalsy esa_token || optStrFalsy esa_team_name then
    none
  else
    match EsaClient.init esa_token esa_team_name with
    | Except.ok c => some c
    | Except.error _ => none

/-- `user_get_info()` (server.py lines 46–61): guard on the client, delegate
to `get_user`, wrap any failure as
`RuntimeError(f"Error getting user info: {e}") from e`. -/
def user_get_info (esa_client : Option EsaClient) (net : Net) :
    Except ToolError Json × List HttpRequest :=
  match esa_client with
  | none => (Except.error ToolError.notInitialized, [])
  | some c =>
    match c.get_user net with
    | (Except.ok j, reqs) => (Except.ok j, reqs)
    | (Except.error e, reqs) =>
      (Except.error (ToolError.wrapped ("Error getting user info: " ++ e.message) e),
        reqs)

/-- Truthiness filter applied by `posts_get_list` before forwarding `q`
(server.py lines 79–80): a falsy value is simply not put into the kwarg
dict, so `get_posts` receives its default `None`. -/
def truthyStr : Option String → Option String
  | some s => if s = "" then none else some s
  | none => none

/-- Truthiness filter applied by `posts_get_list` before forwarding `page` /
`per_page` (server.py lines 81–84). -/
def truthyInt : Option Int → Option Int
  | some n => if n = 0 then none else some n
  | none => none

/-- `posts_get_list(q, page, per_page)` (server.py lines 64–91): guard,
forward only the truthy optional parameters to `get_posts`, wrap failures as
`RuntimeError(f"Error getting posts list: {e}") from e`. -/
def posts_get_list (esa_client : Option EsaClient) (net : Net)
    (q : Option String) (page per_page : Option Int) :
    Except ToolError Json × List HttpRequest :=
  match esa_client with
  | none => (Except.error ToolError.notInitialized, [])
  | some c =>
    match c.get_posts net (truthyStr q) (truthyInt page) (truthyInt per_page) with
    | (Except.ok j, reqs) => (Except.ok j, reqs)
    | (Except.error e, reqs) =>
      (Except.error (ToolError.wrapped ("Error getting posts list: " ++ e.message) e),
        reqs)

/-- `posts_get_detail(post_number)` (server.py lines 94–111): guard,
delegate to `get_post`, wrap failures as
`RuntimeError(f"Error getting post detail: {e}") from e`. -/
def posts_get_detail (esa_client : Option EsaClient) (net : Net)
    (post_number : Int) : Except ToolError Json × List HttpRequest :=
  match esa_client with
  | none => (Except.error ToolError.notInitialized, [])
  | some c =>
    match c.get_post net post_number with
    | (Except.ok j, reqs) => (Except.ok j, reqs)
    | (Except.error e, reqs) =>
      (Except.error (ToolError.wrapped ("Error getting post detail: " ++ e.message) e),
        reqs)

/-- The dict comprehension `{k: v for k, v in payload.items() if v is not None}`
used by `posts_create` and `posts_update` to drop unset fields. -/
def removeNones (payload : List (String × Option Json)) : List (String × Json) :=
  payload.filterMap fun kv => kv.2.map fun v => (kv.1, v)

/-- The payload assembled by `posts_create` (server.py lines 139–148): all
six fields are present (`tags or []` re-defaults a falsy tags value), then
`None` values are removed — no value here is ever `None`. -/
def createPayload (name body_md : String) (tags : List String)
    (category : String) (wip : Bool) (message : String) : List (String × Json) :=
  removeNones
    [("name", some (Json.str name)),
     ("body_md", some (Json.str body_md)),
     ("tags", some (Json.arr ((if tags.isEmpty then [] else tags).map Json.str))),
     ("category", some (Json.str category)),
     ("wip", some (Json.bool wip)),
     ("message", some (Json.str message))]

/-- `posts_create(name, body_md, tags=[], category="", wip=True, message="")`
(server.py lines 114–155): guard, assemble the payload, delegate to
`create_post`, wrap failures as
`RuntimeError(f"Error creating post: {e}") from e`. -/
def posts_create (esa_client : Option EsaClient) (net : Net)
    (name body_md : String) (tags : List String) (category : String)
    (wip : Bool) (message : String) : Except ToolError Json × List HttpRequest :=
  match esa_client with
  | none => (Except.error ToolError.notInitialized, [])
  | some c =>
    match c.create_post net
        (Json.obj (createPayload name body_md tags category wip message)) with
    | (Except.ok j, reqs) => (Except.ok j, reqs)
    | (Except.error e, reqs) =>
      (Except.error (ToolError.wrapped ("Error creating post: " ++ e.message) e),
        reqs)

/-- The payload assembled by `posts_update` (server.py lines 184–193): every
field defaults to `None` and unset (`None`) entries are removed. -/
def updatePayload (name body_md : Option String) (tags : Option (List String))
    (category : Option String) (wip : Option Bool) (message : Option String) :
    List (String × Json) :=
  removeNones
    [("name", name.map Json.str),
     ("body_md", body_md.map Json.str),
     ("tags", tags.map fun ts => Json.arr (ts.map Json.str)),
     ("category", category.map Json.str),
     ("wip", wip.map Json.bool),
     ("message", message.map Json.str)]

/-- `posts_update(post_number, ...)` (server.py lines 158–205): guard,
assemble the `None`-stripped payload; if it is empty, return the
"Nothing changed." message dict without calling the client; otherwise
delegate to `update_post` and wrap failures as
`RuntimeError(f"Error updating post: {e}") from e`. -/
def posts_update (esa_client : Option EsaClient) (net : Net) (post_number : Int)
    (name body_md : Option String) (tags : Option (List String))
    (category : Option String) (wip : Option Bool) (message : Option String) :
    Except ToolError Json × List HttpRequest :=
  match esa_client with
  | none => (Except.error ToolError.notInitialized, [])
  | some c =>
    let payload := updatePayload name body_md tags category wip message
    if payload.isEmpty then
      (Except.ok (Json.obj [("message",
        Json.str ("No update parameters provided for post " ++
          toString post_number ++ ". Nothing changed."))]), [])
    else
      match c.update_post net post_number (Json.obj payload) with
      | (Except.ok j, reqs) => (Except.ok j, reqs)
      | (Except.error e, reqs) =>
        (Except.error (ToolError.wrapped ("Error updating post: " ++ e.message) e),
          reqs)

/-- `posts_delete(post_number)` (server.py lines 208–225): guard, delegate
to `delete_post`, return `{}` on success, wrap failures as
`RuntimeError(f"Error deleting post: {e}") from e`. -/
def posts_delete (esa_client : Option EsaClient) (net : Net) (post_number : Int) :
    Except ToolError Json × List HttpRequest :=
  match esa_client with
  | none => (Except.error ToolError.notInitialized, [])
  | some c =>
    match c.delete_post net post_number with
    | (Except.ok _, reqs) => (Except.ok (Json.obj []), reqs)
    | (Except.error e, reqs) =>
      (Except.error (ToolError.wrapped ("Error deleting post: " ++ e.message) e),
        reqs)

/-- An `EsaClient` method call, for stating frame properties uniformly over
all six operations. -/
inductive ClientOp where
  | getUser : ClientOp
  | getPosts (q : Option String) (page per_page : Option Int) : ClientOp
  | getPost (post_number : Int) : ClientOp
  | createPost (payload : Json) : ClientOp
  | updatePost (post_number : Int) (payload : Json) : ClientOp
  | deletePost (post_number : Int) : ClientOp

/-- A client operation's result, uniformly over the JSON-returning
operations and the `None`-returning delete. -/
inductive OpResult where
  | json (r : Except ClientError Json) : OpResult
  | unit (r : Except ClientError Unit) : OpResult

/-- State-passing form of the six `EsaClient` methods: runs the method body
and also returns the client state after the call.  No method body in
esa_client.py assigns to any `self` attribute or touches
`session.headers` after `__init__`, so each translated body leaves the
client record it read untouched. -/
def EsaClient.runOp (c : EsaClient) (net : Net) :
    ClientOp → (OpResult × List HttpRequest) × EsaClient
  | .getUser =>
    ((OpResult.json (c.get_user net).1, (c.get_user net).2), c)
  | .getPosts q page per_page =>
    ((OpResult.json (c.get_posts net q page per_page).1,
      (c.get_posts net q page per_page).2), c)
  | .getPost post_number =>
    ((OpResult.json (c.get_post net post_number).1,
      (c.get_post net post_number).2), c)
  | .createPost payload =>
    ((OpResult.json (c.create_post net payload).1,
      (c.create_post net payload).2), c)
  | .updatePost post_number payload =>
    ((OpResult.json (c.update_post net post_number payload).1,
      (c.update_post net post_number payload).2), c)
  | .deletePost post_number =>
    ((OpResult.unit (c.delete_post net post_number).1,
      (c.delete_post net post_number).2), c)

/-! ### Concrete fixtures used by witnesses and counterexamples -/

/-- A concrete constructed client, as produced by
`EsaClient.init (some "tok") (some "myteam")`. -/
def ex_client : EsaClient :=
  { token := "tok"
    team_name := "myteam"
    base_url := "https://api.esa.io/v1/teams/myteam"
    headers := [("Authorization", "Bearer tok"), ("Content-Type", "application/json")] }

/-- A concrete JSON body returned by the happy-path oracle. -/
def respJson : Json := Json.obj [("ok", Json.bool true)]

/-- An oracle answering every request with status 200 and a JSON body. -/
def netOk : Net := fun _ =>
  { status := 200, jsonBody := some respJson, statusMessage := "", decodeMessage := "" }

/-- An oracle answering every request with a 500 status. -/
def netFail : Net := fun _ =>
  { status := 500, jsonBody := none, statusMessage := "500 Server Error",
    decodeMessage := "Expecting value" }

/-- An oracle answering every request with 204 No Content: success status,
empty (hence unparseable) body. -/
def net204 : Net := fun _ =>
  { status := 204, jsonBody := none, statusMessage := "", decodeMessage := "" }

/-! ### Claims -/

/-- Claim C1: for every (token, team_name) pair, construction raises a
`ValueError` when either value is absent or empty; when both are non-empty it
succeeds with base URL `https://api.esa.io/v1/teams/<team_name>` and a session
preconfigured with the Bearer-token Authorization header and the JSON
content-type header. -/
theorem c1_client_construction (token team_name : Option String) :
    ((token = none ∨ token = some "" ∨ team_name = none ∨ team_name = some "") →
      ∃ msg, EsaClient.init token team_name = Except.error msg) ∧
    (∀ t n, token = some t → team_name = some n → t ≠ "" → n ≠ "" →
      EsaClient.init token team_name = Except.ok
        { token := t
          team_name := n
          base_url := "https://api.esa.io/v1/teams/" ++ n
          headers := [("Authorization", "Bearer " ++ t),
                      ("Content-Type", "application/json")] }) := by
  constructor
  · intro h
    by_cases ht : optStrFalsy token
    · exact ⟨"ESA_TOKEN is required", by simp [EsaClient.init, ht]⟩
    · have hteam : optStrFalsy team_name = true := by
        rcases h with h | h | h | h <;> subst h <;> simp [optStrFalsy] at ht ⊢
      exact ⟨"ESA_TEAM_NAME is required", by simp [EsaClient.init, ht, hteam]⟩
  · intro t n ht hn htne hnne
    subst ht; subst hn
    simp [EsaClient.init, optStrFalsy, htne, hnne]

/-- Witness for C1: a concrete failing pair and a concrete succeeding pair. -/
theorem c1_client_construction_witness :
    (∃ msg, EsaClient.init none (some "myteam") = Except.error msg) ∧
    EsaClient.init (some "tok") (some "myteam") = Except.ok
      { token := "tok"
        team_name := "myteam"
        base_url := "https://api.esa.io/v1/teams/" ++ "myteam"
        headers := [("Authorization", "Bearer " ++ "tok"),
                    ("Content-Type", "application/json")] } :=
  ⟨(c1_client_construction none (some "myteam")).1 (Or.inl rfl),
   (c1_client_construction (some "tok") (some "myteam")).2 "tok" "myteam" rfl rfl
     (by decide) (by decide)⟩

/-- Helper: `_request` always issues exactly the one request it builds from
its arguments, whatever the oracle answers. -/
theorem request_trace (c : EsaClient) (net : Net) (method path : String)
    (params : List (String × ParamVal)) (jsonBody : Option Json) :
    (c.request net method path params jsonBody).2 =
      [{ method := method, url := c.base_url ++ path, params := params,
         jsonBody := jsonBody, headers := c.headers }] := by
  unfold EsaClient.request
  dsimp only
  split
  · rfl
  · split <;> rfl

/-- Helper: the truthiness filter of `posts_get_list` composed with the one
inside `get_posts` changes nothing for the `q` entry. -/
theorem qParam_truthy (q : Option String) : qParam (truthyStr q) = qParam q := by
  cases q with
  | none => rfl
  | some s => by_cases h : s = "" <;> simp [truthyStr, qParam, h]

/-- Helper: the truthiness filter of `posts_get_list` composed with the one
inside `get_posts` changes nothing for the integer entries. -/
theorem intParam_truthy (key : String) (n : Option Int) :
    intParam key (truthyInt n) = intParam key n := by
  cases n with
  | none => rfl
  | some m => by_cases h : m = 0 <;> simp [truthyInt, intParam, h]

/-- Helper: pre-filtering by the façade's truthiness test leaves the final
query-parameter list unchanged. -/
theorem listParams_truthy (q : Option String) (page per_page : Option Int) :
    listParams (truthyStr q) (truthyInt page) (truthyInt per_page) =
      listParams q page per_page := by
  simp [listParams, qParam_truthy, intParam_truthy]

/-- Helper: `posts_get_list` issues exactly the requests of the underlying
`get_posts` call it delegates to. -/
theorem posts_get_list_trace (c : EsaClient) (net : Net) (q : Option String)
    (page per_page : Option Int) :
    (posts_get_list (some c) net q page per_page).2 =
      (c.get_posts net (truthyStr q) (truthyInt page) (truthyInt per_page)).2 := by
  unfold posts_get_list
  rcases hgp : c.get_posts net (truthyStr q) (truthyInt page) (truthyInt per_page)
    with ⟨r, reqs⟩
  cases r <;> simp [hgp]

/-- Claim C2 as amended: `get_posts` (and `posts_get_list` through it) issues
exactly one GET request to `/posts` whose query parameters are exactly the
optional parameters that were supplied **with a truthy value** (non-empty
string, non-zero integer); a parameter not supplied — or supplied with a
falsy value — is omitted entirely, never sent as null or empty, and nothing
else is ever attached. -/
theorem c2_list_posts_query_params (c : EsaClient) (net : Net)
    (q : Option String) (page per_page : Option Int) :
    (c.get_posts net q page per_page).2 =
      [{ method := "GET", url := c.base_url ++ "/posts",
         params := listParams q page per_page, jsonBody := none,
         headers := c.headers }] ∧
    (posts_get_list (some c) net q page per_page).2 =
      [{ method := "GET", url := c.base_url ++ "/posts",
         params := listParams q page per_page, jsonBody := none,
         headers := c.headers }] ∧
    (∀ s, ("q", ParamVal.str s) ∈ listParams q page per_page ↔
      (q = some s ∧ s ≠ "")) ∧
    (∀ n, ("page", ParamVal.int n) ∈ listParams q page per_page ↔
      (page = some n ∧ n ≠ 0)) ∧
    (∀ n, ("per_page", ParamVal.int n) ∈ listParams q page per_page ↔
      (per_page = some n ∧ n ≠ 0)) ∧
    (∀ p ∈ listParams q page per_page,
      p.1 = "q" ∨ p.1 = "page" ∨ p.1 = "per_page") := by
  refine ⟨request_trace c net "GET" "/posts" (listParams q page per_page) none,
    ?_, ?_, ?_, ?_, ?_⟩
  · rw [posts_get_list_trace, EsaClient.get_posts, listParams_truthy]
    exact request_trace c net "GET" "/posts" (listParams q page per_page) none
  · intro s
    cases q <;> cases page <;> cases per_page <;>
      simp [listParams, qParam, intParam] <;> aesop
  · intro n
    cases q <;> cases page <;> cases per_page <;>
      simp [listParams, qParam, intParam] <;> aesop
  · intro n
    cases q <;> cases page <;> cases per_page <;>
      simp [listParams, qParam, intParam] <;> aesop
  · cases q <;> cases page <;> cases per_page <;>
      simp [listParams, qParam, intParam] <;> aesop

/-- Counterexample to C2 as stated: all three optional parameters are
supplied (`q = ""`, `page = 0`, `per_page = 0`), yet the single outgoing GET
request carries zero query parameters — a supplied parameter is not included,
because `get_posts` drops falsy values. -/
theorem c2_counterexample :
    (ex_client.get_posts netOk (some "") (some 0) (some 0)).2.map
      HttpRequest.params = [[]] := rfl

/-- Witness for C2 (amended) at concrete inputs: `q = "hello"`, `page = 2`
supplied and sent, `per_page` absent and omitted. -/
theorem c2_list_posts_query_params_witness :
    (ex_client.get_posts netOk (some "hello") (some 2) none).2 =
      [{ method := "GET", url := ex_client.base_url ++ "/posts",
         params := listParams (some "hello") (some 2) none, jsonBody := none,
         headers := ex_client.headers }] ∧
    (("q", ParamVal.str "hello") ∈ listParams (some "hello") (some 2) none ↔
      (some "hello" = some "hello" ∧ "hello" ≠ "")) ∧
    (("page", ParamVal.int 2) ∈ listParams (some "hello") (some 2) none ↔
      ((some 2 : Option Int) = some 2 ∧ (2 : Int) ≠ 0)) ∧
    (("per_page", ParamVal.int 50) ∈ listParams (some "hello") (some 2) none ↔
      ((none : Option Int) = some 50 ∧ (50 : Int) ≠ 0)) :=
  ⟨(c2_list_posts_query_params ex_client netOk (some "hello") (some 2) none).1,
   (c2_list_posts_query_params ex_client netOk (some "hello") (some 2) none).2.2.1 "hello",
   (c2_list_posts_query_params ex_client netOk (some "hello") (some 2) none).2.2.2.1 2,
   (c2_list_posts_query_params ex_client netOk (some "hello") (some 2) none).2.2.2.2.1 50⟩

/-- Claim C3: `posts_update` with every optional field unset never calls the
client (the request trace is empty) and returns the fixed "Nothing changed."
descriptor. -/
theorem c3_posts_update_no_fields_no_call (c : EsaClient) (net : Net)
    (post_number : Int) :
    posts_update (some c) net post_number none none none none none none =
      (Except.ok (Json.obj [("message",
        Json.str ("No update parameters provided for post " ++
          toString post_number ++ ". Nothing changed."))]), []) := rfl

/-- Claim C4: every one of the six tools invoked with an uninitialized client
fails with the uniform `RuntimeError("EsaClient not initialized")` and issues
no HTTP request. -/
theorem c4_uninitialized_guard (net : Net) (q : Option String)
    (page per_page : Option Int) (post_number : Int) (name body_md : String)
    (tags : List String) (category : String) (wip : Bool) (message : String)
    (uname ubody : Option String) (utags : Option (List String))
    (ucategory : Option String) (uwip : Option Bool) (umessage : Option String) :
    user_get_info none net = (Except.error ToolError.notInitialized, []) ∧
    posts_get_list none net q page per_page =
      (Except.error ToolError.notInitialized, []) ∧
    posts_get_detail none net post_number =
      (Except.error ToolError.notInitialized, []) ∧
    posts_create none net name body_md tags category wip message =
      (Except.error ToolError.notInitialized, []) ∧
    posts_update none net post_number uname ubody utags ucategory uwip umessage =
      (Except.error ToolError.notInitialized, []) ∧
    posts_delete none net post_number =
      (Except.error ToolError.notInitialized, []) :=
  ⟨rfl, rfl, rfl, rfl, rfl, rfl⟩

/-- Claim C10: supplying a falsy optional parameter (`q = ""`, `page = 0`,
`per_page = 0`) to `get_posts` or `posts_get_list` behaves exactly like
omitting it: the whole call result (value and request trace) is identical. -/
theorem c10_falsy_params_omitted (c : EsaClient) (net : Net)
    (q : Option String) (page per_page : Option Int) :
    (c.get_posts net (some "") page per_page = c.get_posts net none page per_page) ∧
    (c.get_posts net q (some 0) per_page = c.get_posts net q none per_page) ∧
    (c.get_posts net q page (some 0) = c.get_posts net q page none) ∧
    (posts_get_list (some c) net (some "") page per_page =
      posts_get_list (some c) net none page per_page) ∧
    (posts_get_list (some c) net q (some 0) per_page =
      posts_get_list (some c) net q none per_page) ∧
    (posts_get_list (some c) net q page (some 0) =
      posts_get_list (some c) net q page none) :=
  ⟨rfl, rfl, rfl, rfl, rfl, rfl⟩

/-- Helper: `posts_create` issues exactly the requests of the `create_post`
call it delegates to. -/
theorem posts_create_trace (c : EsaClient) (net : Net) (name body_md : String)
    (tags : List String) (category : String) (wip : Bool) (message : String) :
    (posts_create (some c) net name body_md tags category wip message).2 =
      (c.create_post net
        (Json.obj (createPayload name body_md tags category wip message))).2 := by
  unfold posts_create
  rcases h : c.create_post net
      (Json.obj (createPayload name body_md tags category wip message))
    with ⟨r, reqs⟩
  cases r <;> simp [h]

/-- Claim C6: `posts_create` invoked with only the required fields (the
declared defaults `tags = []`, `category = ""`, `wip = true`,
`message = ""` in place) sends a payload containing all six keys with those
defaults: they are not treated as absent and the `None`-filter strips
nothing. -/
theorem c6_posts_create_defaults (c : EsaClient) (net : Net)
    (name body_md : String) :
    createPayload name body_md [] "" true "" =
      [("name", Json.str name), ("body_md", Json.str body_md),
       ("tags", Json.arr []), ("category", Json.str ""),
       ("wip", Json.bool true), ("message", Json.str "")] ∧
    (posts_create (some c) net name body_md [] "" true "").2 =
      [{ method := "POST", url := c.base_url ++ "/posts", params := [],
         jsonBody := some (Json.obj [("post", Json.obj
           [("name", Json.str name), ("body_md", Json.str body_md),
            ("tags", Json.arr []), ("category", Json.str ""),
            ("wip", Json.bool true), ("message", Json.str "")])]),
         headers := c.headers }] := by
  constructor
  · rfl
  · rw [posts_create_trace]
    exact request_trace c net "POST" "/posts" []
      (some (Json.obj [("post", Json.obj (createPayload name body_md [] "" true ""))]))

/-- Claim C7: on a success status, `delete_post` returns `None` having never
attempted to parse the response body (its outcome does not depend on the
body at all), and `posts_delete` then returns the empty dict `{}`, not
null. -/
theorem c7_delete_no_body_parse (c : EsaClient) (net : Net) (post_number : Int)
    (hok : ¬ (400 ≤ (net (deleteReq c post_number)).status ∧
              (net (deleteReq c post_number)).status < 600)) :
    c.delete_post net post_number = (Except.ok (), [deleteReq c post_number]) ∧
    posts_delete (some c) net post_number =
      (Except.ok (Json.obj []), [deleteReq c post_number]) ∧
    (∀ net' : Net,
      (net' (deleteReq c post_number)).status =
        (net (deleteReq c post_number)).status →
      (net' (deleteReq c post_number)).statusMessage =
        (net (deleteReq c post_number)).statusMessage →
      c.delete_post net' post_number = c.delete_post net post_number) := by
  have h1 : c.delete_post net post_number = (Except.ok (), [deleteReq c post_number]) := by
    unfold EsaClient.delete_post
    dsimp only
    rw [if_neg hok]
  refine ⟨h1, ?_, ?_⟩
  · unfold posts_delete
    dsimp only
    rw [h1]
  · intro net' hs hm
    unfold EsaClient.delete_post
    dsimp only
    rw [hs, hm]

/-- Witness for C7: a 204 No Content answer whose body is unparseable
(`jsonBody = none`); `delete_post` still succeeds with `None` and
`posts_delete` returns `{}`. -/
theorem c7_delete_no_body_parse_witness :
    ex_client.delete_post net204 5 = (Except.ok (), [deleteReq ex_client 5]) ∧
    posts_delete (some ex_client) net204 5 =
      (Except.ok (Json.obj []), [deleteReq ex_client 5]) :=
  ⟨(c7_delete_no_body_parse ex_client net204 5 (by decide)).1,
   (c7_delete_no_body_parse ex_client net204 5 (by decide)).2.1⟩

/-- Claim C8: `create_post` transmits exactly `{"post": payload}` as the POST
body and, on a parseable 2xx answer, returns exactly the parsed response
body; `update_post` sends PATCH `/posts/{post_number}` with body
`{"post": payload}` and likewise returns the parsed JSON body. -/
theorem c8_post_payload_wrapping (c : EsaClient) (net : Net) (payload : Json)
    (post_number : Int) (j : Json) :
    (c.create_post net payload).2 = [createReq c payload] ∧
    (¬ (400 ≤ (net (createReq c payload)).status ∧
        (net (createReq c payload)).status < 600) →
      (net (createReq c payload)).jsonBody = some j →
      (c.create_post net payload).1 = Except.ok j) ∧
    (c.update_post net post_number payload).2 =
      [updateReq c post_number payload] ∧
    (¬ (400 ≤ (net (updateReq c post_number payload)).status ∧
        (net (updateReq c post_number payload)).status < 600) →
      (net (updateReq c post_number payload)).jsonBody = some j →
      (c.update_post net post_number payload).1 = Except.ok j) := by
  refine ⟨request_trace c net "POST" "/posts" []
      (some (Json.obj [("post", payload)])), ?_,
    request_trace c net "PATCH" ("/posts/" ++ toString post_number) []
      (some (Json.obj [("post", payload)])), ?_⟩
  · intro hs hb
    unfold EsaClient.create_post EsaClient.request
    dsimp only
    simp only [createReq] at hs hb
    rw [if_neg hs, hb]
  · intro hs hb
    unfold EsaClient.update_post EsaClient.request
    dsimp only
    simp only [updateReq] at hs hb
    rw [if_neg hs, hb]

/-- Witness for C8: a concrete payload against the 200-with-JSON oracle. -/
theorem c8_post_payload_wrapping_witness :
    (ex_client.create_post netOk (Json.obj [("name", Json.str "T")])).2 =
      [createReq ex_client (Json.obj [("name", Json.str "T")])] ∧
    (ex_client.create_post netOk (Json.obj [("name", Json.str "T")])).1 =
      Except.ok respJson ∧
    (ex_client.update_post netOk 7 (Json.obj [("name", Json.str "T")])).2 =
      [updateReq ex_client 7 (Json.obj [("name", Json.str "T")])] ∧
    (ex_client.update_post netOk 7 (Json.obj [("name", Json.str "T")])).1 =
      Except.ok respJson :=
  ⟨(c8_post_payload_wrapping ex_client netOk (Json.obj [("name", Json.str "T")])
      7 respJson).1,
   (c8_post_payload_wrapping ex_client netOk (Json.obj [("name", Json.str "T")])
      7 respJson).2.1 (by decide) rfl,
   (c8_post_payload_wrapping ex_client netOk (Json.obj [("name", Json.str "T")])
      7 respJson).2.2.1,
   (c8_post_payload_wrapping ex_client netOk (Json.obj [("name", Json.str "T")])
      7 respJson).2.2.2 (by decide) rfl⟩

/-- Claim C5: for each of the six tools, any failure raised by the client
during the operation is re-raised as the uniform `RuntimeError` whose message
is the operation's description followed by the original failure's message,
with the original failure retained as the cause (`raise ... from e`); the
result type at the tool boundary is `ToolError`, so no raw transport failure
escapes. -/
theorem c5_error_wrapping (c : EsaClient) (net : Net) (e : ClientError)
    (q : Option String) (page per_page : Option Int) (post_number : Int)
    (name body_md : String) (tags : List String) (category : String)
    (wip : Bool) (message : String) (uname ubody : Option String)
    (utags : Option (List String)) (ucategory : Option String)
    (uwip : Option Bool) (umessage : Option String) :
    ((c.get_user net).1 = Except.error e →
      (user_get_info (some c) net).1 = Except.error
        (ToolError.wrapped ("Error getting user info: " ++ e.message) e)) ∧
    ((c.get_posts net (truthyStr q) (truthyInt page) (truthyInt per_page)).1 =
        Except.error e →
      (posts_get_list (some c) net q page per_page).1 = Except.error
        (ToolError.wrapped ("Error getting posts list: " ++ e.message) e)) ∧
    ((c.get_post net post_number).1 = Except.error e →
      (posts_get_detail (some c) net post_number).1 = Except.error
        (ToolError.wrapped ("Error getting post detail: " ++ e.message) e)) ∧
    ((c.create_post net
        (Json.obj (createPayload name body_md tags category wip message))).1 =
        Except.error e →
      (posts_create (some c) net name body_md tags category wip message).1 =
        Except.error
          (ToolError.wrapped ("Error creating post: " ++ e.message) e)) ∧
    ((updatePayload uname ubody utags ucategory uwip umessage).isEmpty = false →
      (c.update_post net post_number
        (Json.obj (updatePayload uname ubody utags ucategory uwip umessage))).1 =
        Except.error e →
      (posts_update (some c) net post_number uname ubody utags ucategory uwip
        umessage).1 = Except.error
          (ToolError.wrapped ("Error updating post: " ++ e.message) e)) ∧
    ((c.delete_post net post_number).1 = Except.error e →
      (posts_delete (some c) net post_number).1 = Except.error
        (ToolError.wrapped ("Error deleting post: " ++ e.message) e)) := by
  refine ⟨?_, ?_, ?_, ?_, ?_, ?_⟩
  · intro h
    unfold user_get_info
    dsimp only
    rcases hr : c.get_user net with ⟨r, reqs⟩
    rw [hr] at h
    have h' : r = Except.error e := h
    subst h'
    rfl
  · intro h
    unfold posts_get_list
    dsimp only
    rcases hr : c.get_posts net (truthyStr q) (truthyInt page) (truthyInt per_page)
      with ⟨r, reqs⟩
    rw [hr] at h
    have h' : r = Except.error e := h
    subst h'
    rfl
  · intro h
    unfold posts_get_detail
    dsimp only
    rcases hr : c.get_post net post_number with ⟨r, reqs⟩
    rw [hr] at h
    have h' : r = Except.error e := h
    subst h'
    rfl
  · intro h
    unfold posts_create
    dsimp only
    rcases hr : c.create_post net
        (Json.obj (createPayload name body_md tags category wip message))
      with ⟨r, reqs⟩
    rw [hr] at h
    have h' : r = Except.error e := h
    subst h'
    rfl
  · intro hne h
    unfold posts_update
    dsimp only
    rw [if_neg (by simp [hne] :
      ¬ ((updatePayload uname ubody utags ucategory uwip umessage).isEmpty = true))]
    rcases hr : c.update_post net post_number
        (Json.obj (updatePayload uname ubody utags ucategory uwip umessage))
      with ⟨r, reqs⟩
    rw [hr] at h
    have h' : r = Except.error e := h
    subst h'
    rfl
  · intro h
    unfold posts_delete
    dsimp only
    rcases hr : c.delete_post net post_number with ⟨r, reqs⟩
    rw [hr] at h
    have h' : r = Except.error e := h
    subst h'
    rfl

/-- Witness for C5: against the always-500 oracle, each of the six tools
wraps the concrete `HTTPError` into its operation's `RuntimeError`, keeping
it as the cause. -/
theorem c5_error_wrapping_witness :
    (user_get_info (some ex_client) netFail).1 = Except.error
      (ToolError.wrapped ("Error getting user info: " ++
        (ClientError.httpError 500 "500 Server Error").message)
        (ClientError.httpError 500 "500 Server Error")) ∧
    (posts_get_list (some ex_client) netFail none none none).1 = Except.error
      (ToolError.wrapped ("Error getting posts list: " ++
        (ClientError.httpError 500 "500 Server Error").message)
        (ClientError.httpError 500 "500 Server Error")) ∧
    (posts_get_detail (some ex_client) netFail 1).1 = Except.error
      (ToolError.wrapped ("Error getting post detail: " ++
        (ClientError.httpError 500 "500 Server Error").message)
        (ClientError.httpError 500 "500 Server Error")) ∧
    (posts_create (some ex_client) netFail "T" "B" [] "" true "").1 =
      Except.error
        (ToolError.wrapped ("Error creating post: " ++
          (ClientError.httpError 500 "500 Server Error").message)
          (ClientError.httpError 500 "500 Server Error")) ∧
    (posts_update (some ex_client) netFail 1 (some "x") none none none none
        none).1 = Except.error
      (ToolError.wrapped ("Error updating post: " ++
        (ClientError.httpError 500 "500 Server Error").message)
        (ClientError.httpError 500 "500 Server Error")) ∧
    (posts_delete (some ex_client) netFail 1).1 = Except.error
      (ToolError.wrapped ("Error deleting post: " ++
        (ClientError.httpError 500 "500 Server Error").message)
        (ClientError.httpError 500 "500 Server Error")) :=
  ⟨(c5_error_wrapping ex_client netFail
      (ClientError.httpError 500 "500 Server Error") none none none 1 "T" "B"
      [] "" true "" (some "x") none none none none none).1 rfl,
   (c5_error_wrapping ex_client netFail
      (ClientError.httpError 500 "500 Server Error") none none none 1 "T" "B"
      [] "" true "" (some "x") none none none none none).2.1 rfl,
   (c5_error_wrapping ex_client netFail
      (ClientError.httpError 500 "500 Server Error") none none none 1 "T" "B"
      [] "" true "" (some "x") none none none none none).2.2.1 rfl,
   (c5_error_wrapping ex_client netFail
      (ClientError.httpError 500 "500 Server Error") none none none 1 "T" "B"
      [] "" true "" (some "x") none none none none none).2.2.2.1 rfl,
   (c5_error_wrapping ex_client netFail
      (ClientError.httpError 500 "500 Server Error") none none none 1 "T" "B"
      [] "" true "" (some "x") none none none none none).2.2.2.2.1 rfl rfl,
   (c5_error_wrapping ex_client netFail
      (ClientError.httpError 500 "500 Server Error") none none none 1 "T" "B"
      [] "" true "" (some "x") none none none none none).2.2.2.2.2 rfl⟩

/-- Claim C9: every client operation leaves the configuration set at
construction untouched: the client state after any of the six method bodies
(which contain no attribute assignment) is the client it started from, so
token, team name, base URL and session headers are all preserved. -/
theorem c9_client_ops_preserve_config (c : EsaClient) (net : Net)
    (op : ClientOp) :
    (c.runOp net op).2 = c ∧
    (c.runOp net op).2.token = c.token ∧
    (c.runOp net op).2.team_name = c.team_name ∧
    (c.runOp net op).2.base_url = c.base_url ∧
    (c.runOp net op).2.headers = c.headers := by
  have h : (c.runOp net op).2 = c := by cases op <;> rfl
  exact ⟨h, by rw [h], by rw [h], by rw [h], by rw [h]⟩

